import Mathlib

/-!
Verification development for the insta-profile-discovery repository.

Shallow embedding of the core components (CriteriaChecker, QueueManager's
frontier store and run loop, InstagramScraper's credential pool and reel
fetching, ContactExtractor) translated from the Python source under src/,
together with theorems settling the frozen specification claims.
-/

set_option maxRecDepth 4000

/-! ## Criteria checker (src/core/criteria.py)

Translation of `CriteriaChecker`.  A reel carries the three counters the
checker reads (`reel.get('view_count', 0)`, `like_count`, `comment_count`);
missing-key defaults are absorbed into total fields.  The engagement rate is
computed over ℚ, modelling Python's full-precision float arithmetic; the
criteria-data bookkeeping is reduced to the fields the claims mention
(average views, pass bits, and the no-reels fail reason). -/

structure Reel where
  view_count : Nat
  like_count : Nat
  comment_count : Nat
deriving DecidableEq, Repr

structure CriteriaConfig where
  min_followers : Nat
  min_avg_reel_views : Nat
  min_engagement_rate : ℚ
deriving DecidableEq, Repr

/-- Default thresholds from `CriteriaChecker.__init__` in src/core/criteria.py. -/
def defaultCriteriaConfig : CriteriaConfig :=
  { min_followers := 500000, min_avg_reel_views := 100000, min_engagement_rate := 2 }

namespace CriteriaChecker

/-- `CriteriaChecker._check_followers`: `followers_count >= min_followers`. -/
def check_followers (cfg : CriteriaConfig) (followers_count : Nat) : Bool :=
  cfg.min_followers ≤ followers_count

/-- Result record of `_check_reel_views` (the slice of `criteria_data` the
claims mention: the computed average, the pass bit, and the fail reason
appended to `fail_reasons`; numeric formatting inside the non-empty-case
message is elided). -/
structure ReelViewsResult where
  avg_views : Nat
  passed : Bool
  fail_reason : Option String
deriving DecidableEq, Repr

/-- `CriteriaChecker._check_reel_views`: empty reel list is a hard fail with
the "No reels found to calculate views" reason; otherwise
`avg_views = total_views // len(last_5_reels)` and the gate passes iff
`avg_views >= min_avg_reel_views`. -/
def check_reel_views (cfg : CriteriaConfig) (last_5_reels : List Reel) : ReelViewsResult :=
  if last_5_reels.length = 0 then
    { avg_views := 0, passed := false,
      fail_reason := some "No reels found to calculate views" }
  else
    let total_views := (last_5_reels.map Reel.view_count).sum
    let avg_views := total_views / last_5_reels.length
    { avg_views := avg_views,
      passed := cfg.min_avg_reel_views ≤ avg_views,
      fail_reason := if cfg.min_avg_reel_views ≤ avg_views then none
                     else some "Avg reel views below required" }

/-- `CriteriaChecker._check_engagement_rate`: zero reels or zero followers is
a hard fail; otherwise rate = mean(likes+comments) / followers × 100,
compared against the threshold at full precision. -/
def check_engagement_rate (cfg : CriteriaConfig) (last_5_reels : List Reel)
    (followers_count : Nat) : ℚ × Bool :=
  if last_5_reels.length = 0 ∨ followers_count = 0 then (0, false)
  else
    let total_engagement : Nat :=
      (last_5_reels.map (fun r => r.like_count + r.comment_count)).sum
    let avg_engagement : ℚ := (total_engagement : ℚ) / (last_5_reels.length : ℚ)
    let engagement_rate : ℚ := avg_engagement / (followers_count : ℚ) * 100
    (engagement_rate, cfg.min_engagement_rate ≤ engagement_rate)

/-- `CriteriaChecker.check_account` final decision:
`all_passed = followers_pass and views_pass and engagement_pass`.
(The telegram-link and contact extraction steps of `check_account` are
omitted: the source comments mark them optional and they do not affect the
returned boolean.) -/
def check_account (cfg : CriteriaConfig) (followers_count : Nat)
    (last_5_reels : List Reel) : Bool :=
  let followers_pass := check_followers cfg followers_count
  let views_pass := (check_reel_views cfg last_5_reels).passed
  let engagement_pass := (check_engagement_rate cfg last_5_reels followers_count).2
  followers_pass && views_pass && engagement_pass

end CriteriaChecker

/-! ## Database record model (src/database/models.py)

The three handle-bearing tables are modelled as lists of records keyed by
username, carrying the columns the claims read (status, level).  Statuses
mirror the `SeedStatus` / `AccountStatus` enums. -/

inductive SeedStatus where
  | pending
  | processing
  | checked
deriving DecidableEq, Repr

inductive AccountStatus where
  | pending
  | pass
  | fail
  | checked
  | processing
deriving DecidableEq, Repr

structure SeedRec where
  username : String
  status : SeedStatus
deriving DecidableEq, Repr

structure DiscRec where
  username : String
  status : AccountStatus
  level : Nat
  parent_username : Option String
deriving DecidableEq, Repr

/-- Row of `passed_influencers`; contact and metric columns not read by any
claim are elided (inserts are keyed and deduplicated on `username` alone). -/
structure PassedRec where
  username : String
  level_found : Nat
deriving DecidableEq, Repr

/-- State of the three handle-bearing tables. -/
structure DB where
  seeds : List SeedRec
  discovered : List DiscRec
  passed : List PassedRec
deriving DecidableEq, Repr

namespace DB

def inSeeds (db : DB) (u : String) : Bool := db.seeds.any (fun r => r.username = u)

def inDiscovered (db : DB) (u : String) : Bool :=
  db.discovered.any (fun r => r.username = u)

def inPassed (db : DB) (u : String) : Bool := db.passed.any (fun r => r.username = u)

/-- `u` occupies more than one of the three tables. -/
def multiTabled (db : DB) (u : String) : Bool :=
  (db.inSeeds u && db.inDiscovered u) || (db.inSeeds u && db.inPassed u) ||
    (db.inDiscovered u && db.inPassed u)

/-- `session.query(SeedUsername).filter(username == u).update({'status': s})`. -/
def setSeedStatus (db : DB) (u : String) (s : SeedStatus) : DB :=
  { db with seeds := db.seeds.map (fun r => if r.username = u then { r with status := s } else r) }

/-- `session.query(DiscoveredAccount).filter(username == u).update({'status': s})`. -/
def setDiscStatus (db : DB) (u : String) (s : AccountStatus) : DB :=
  { db with discovered :=
      db.discovered.map (fun r => if r.username = u then { r with status := s } else r) }

end DB

/-! ## Queue manager (src/core/queue_manager.py)

`max_level` defaults to 4 (`int(self.config.get('max_level', 4))`, matching
the `('max_level', '4')` default row installed by
`Database.initialize_default_config`). -/

def defaultMaxLevel : Nat := 4

namespace QueueManager

/-- `QueueManager._store_passed_influencer`: queries `passed_influencers` by
username first and skips the insert when a row exists; otherwise inserts one
new row. -/
def store_passed_influencer (db : DB) (username : String) (level : Nat) : DB :=
  if db.inPassed username then db
  else { db with passed := db.passed ++ [{ username := username, level_found := level }] }

/-- One loop body of `QueueManager._add_followings_to_queue`: skip the handle
when it already exists in `discovered_accounts`, `passed_influencers`, or
`seed_usernames` (checked in that order); otherwise insert a PENDING
`DiscoveredAccount` at the given level.  Returns the updated state and
whether a row was added. -/
def addOneFollowing (db : DB) (parent_username following_username : String)
    (level : Nat) : DB × Bool :=
  if db.inDiscovered following_username then (db, false)
  else if db.inPassed following_username then (db, false)
  else if db.inSeeds following_username then (db, false)
  else
    ({ db with discovered := db.discovered ++
        [{ username := following_username, status := AccountStatus.pending,
           level := level, parent_username := some parent_username }] },
     true)

/-- `QueueManager._add_followings_to_queue`: fold `addOneFollowing` over the
followings list, counting additions.  Note the source applies no level check
here; the cap lives in the caller. -/
def add_followings_to_queue (db : DB) (parent_username : String)
    (followings : List String) (level : Nat) : DB × Nat :=
  followings.foldl
    (fun acc f =>
      let step := addOneFollowing acc.1 parent_username f level
      (step.1, acc.2 + (if step.2 then 1 else 0)))
    (db, 0)

inductive UType where
  | seed
  | discovered
deriving DecidableEq, Repr

structure UserInfo where
  username : String
  followers_count : Nat
  following_count : Nat
  posts_count : Nat
  bio : String
deriving DecidableEq, Repr

structure ProfileData where
  user_info : UserInfo
  reels : List Reel
  followings : List String
deriving DecidableEq, Repr

/-- Observable outcome of `QueueManager.process_username`: the result dict,
the final table state, and the ordered status writes issued for the handle's
own row (seed table writes and discovered table writes separately). -/
structure ProcessResult where
  db : DB
  success : Bool
  passed : Bool
  error : Option String
  followings_added : Nat
  seedWrites : List SeedStatus
  discWrites : List AccountStatus
deriving Repr

/-- `QueueManager._mark_as_failed`: a seed is set to CHECKED, a discovered
account to FAIL. -/
def mark_as_failed (db : DB) (username : String) (utype : UType) : DB :=
  match utype with
  | .seed => db.setSeedStatus username .checked
  | .discovered => db.setDiscStatus username .fail

/-- `QueueManager.process_username` with the scrape outcome supplied as data
(`profile_data = None` models `get_complete_profile_data` returning None).
Steps, in source order: mark PROCESSING; on missing profile data mark failed
and return the error result; run `check_account`; on pass store the passed
influencer (keyed on `user_info['username']`); for non-seeds write PASS/FAIL;
enqueue followings at `level + 1` only when `level < max_level`; finally mark
CHECKED. -/
def process_username (cfg : CriteriaConfig) (max_level : Nat) (db : DB)
    (username : String) (level : Nat) (utype : UType)
    (profile_data : Option ProfileData) : ProcessResult :=
  let db1 := match utype with
    | .seed => db.setSeedStatus username .processing
    | .discovered => db.setDiscStatus username .processing
  match profile_data with
  | none =>
    { db := mark_as_failed db1 username utype
      success := false
      passed := false
      error := some "Failed to fetch profile data"
      followings_added := 0
      seedWrites := match utype with
        | .seed => [.processing, .checked]
        | .discovered => []
      discWrites := match utype with
        | .seed => []
        | .discovered => [.processing, .fail] }
  | some pd =>
    let passed := CriteriaChecker.check_account cfg pd.user_info.followers_count pd.reels
    let db2 := if passed then store_passed_influencer db1 pd.user_info.username level else db1
    let db3 := match utype with
      | .seed => db2
      | .discovered => db2.setDiscStatus username (if passed then .pass else .fail)
    let enq := if level < max_level then
        add_followings_to_queue db3 username pd.followings (level + 1)
      else (db3, 0)
    let db4 := match utype with
      | .seed => enq.1.setSeedStatus username .checked
      | .discovered => enq.1.setDiscStatus username .checked
    { db := db4
      success := true
      passed := passed
      error := none
      followings_added := enq.2
      seedWrites := match utype with
        | .seed => [.processing, .checked]
        | .discovered => []
      discWrites := match utype with
        | .seed => []
        | .discovered => [.processing, if passed then .pass else .fail, .checked] }

end QueueManager

/-! ## Instagram scraper (src/core/scraper.py)

Credential pool model for `_get_current_client` / `_check_hourly_rate_limit`
/ `_rotate_account`, and the reel-fetch fallback of `get_user_reels`.
An identity record carries its request timestamps (`account_request_times`),
whether a client is cached for it (`username in self.clients`), and whether
a fresh `_login_account` on it would succeed. -/

namespace InstagramScraper

/-- `self.max_requests_per_hour = 50`. -/
def maxRequestsPerHour : Nat := 50

structure Identity where
  username : String
  times : List Int
  hasClient : Bool
  loginOk : Bool
deriving DecidableEq, Repr

structure ScraperState where
  accounts : List Identity
  current_account_index : Nat
deriving DecidableEq, Repr

/-- `_check_hourly_rate_limit`: the count of timestamps strictly inside the
trailing 3600 seconds must be below the cap.  A username missing from
`account_request_times` is modelled by an empty list (equivalent, the cap
being positive).  The source also prunes stale timestamps in place, which
does not change any later check at the same clock value and is not
modelled. -/
def check_hourly_rate_limit (now : Int) (times : List Int) : Bool :=
  (times.filter (fun t => now - 3600 < t)).length < maxRequestsPerHour

/-- Effect of `_login_account` on the identity's pool record: on success the
client is cached and `account_request_times[username]` is reset to `[]`;
on failure nothing is stored. -/
def loginAccount (a : Identity) : Identity :=
  if a.loginOk then { a with hasClient := true, times := [] } else a

/-- `_rotate_account`: advance the ring index by one (mod pool size); if the
new current identity has no cached client, attempt a login (a failed login
leaves the record unchanged). -/
def rotateAccount (st : ScraperState) : ScraperState :=
  let idx := (st.current_account_index + 1) % st.accounts.length
  match st.accounts.get? idx with
  | none => { st with current_account_index := idx }
  | some a =>
    if a.hasClient then { st with current_account_index := idx }
    else { accounts := st.accounts.set idx (loginAccount a), current_account_index := idx }

/-- The `while attempts < len(self.accounts)` loop of `_get_current_client`
(fuel = remaining attempts).  At the current ring position: when the hourly
rate check passes and a client is cached — or a fresh login succeeds — the
identity is returned; otherwise rotate and try the next position. -/
def getCurrentClientAux (now : Int) : Nat → ScraperState → Option String
  | 0, _ => none
  | fuel + 1, st =>
    match st.accounts.get? st.current_account_index with
    | none => none
    | some a =>
      if check_hourly_rate_limit now a.times then
        if a.hasClient || a.loginOk then some a.username
        else getCurrentClientAux now fuel (rotateAccount st)
      else getCurrentClientAux now fuel (rotateAccount st)

/-- `_get_current_client`; `none` models the two raised exceptions ("No
Instagram accounts available" and "All accounts are rate limited or
unavailable"). -/
def get_current_client (now : Int) (st : ScraperState) : Option String :=
  if st.accounts.length = 0 then none
  else getCurrentClientAux now st.accounts.length st

/-- Identity usability as judged at the first examined ring position: its
rate window is checked before any login could reset it, then a cached
client is reused or a fresh login tried. -/
def usableNow (now : Int) (a : Identity) : Bool :=
  check_hourly_rate_limit now a.times && (a.hasClient || a.loginOk)

/-- Identity usability as judged at every later ring position: rotation
fresh-logins an identity without a cached client, and a successful login
resets its request history, so such an identity is usable exactly when its
login works — regardless of its previous request count. -/
def usableNext (now : Int) (a : Identity) : Bool :=
  if a.hasClient then check_hourly_rate_limit now a.times else a.loginOk

def defaultIdentity : Identity :=
  { username := "", times := [], hasClient := false, loginOk := false }

/-- Ring position `k` counted from the current index. -/
def ringAt (st : ScraperState) (k : Nat) : Identity :=
  st.accounts.getD ((st.current_account_index + k) % st.accounts.length) defaultIdentity

def usableAt (now : Int) (st : ScraperState) (k : Nat) : Bool :=
  if k = 0 then usableNow now (ringAt st k) else usableNext now (ringAt st k)

/-- `InstagramScraper.get_user_reels`: a successful fetch yields the first
`count` reels (`reels[:count]`); any exception escaping the `_safe_request`
retry wrapper is caught and an empty list is returned instead. -/
def get_user_reels (count : Nat) (fetched : Except String (List Reel)) : List Reel :=
  match fetched with
  | .ok reels => reels.take count
  | .error _ => []

end InstagramScraper

/-! ## Processing loop (src/core/queue_manager.py, run_processing_loop)

The loop body is driven by the outcome of one iteration: a completed batch,
an empty pending poll, a caught iteration-level exception, or a keyboard
interrupt.  The state records the running flag, the consecutive-error
counter, and the sequence of sleep durations issued. -/

namespace QueueManager

inductive IterOutcome where
  | batch
  | noPending
  | iterError
  | interrupt
deriving DecidableEq, Repr

structure LoopState where
  is_running : Bool
  consecutive_errors : Nat
  sleeps : List Nat
deriving DecidableEq, Repr

/-- `if consecutive_errors >= 5: break`. -/
def errorStopThreshold : Nat := 5

/-- `backoff_time = 30 * consecutive_errors`. -/
def errorBackoffBase : Nat := 30

/-- One iteration of `run_processing_loop`: a completed batch resets the
error counter and sleeps 10s; an empty poll sleeps 30s; an interrupt stops
the loop; an iteration-level exception increments the counter, stops the
loop once the counter reaches the threshold, and otherwise sleeps
`30 × consecutive_errors`.  A stopped loop performs no further steps. -/
def loopStep (st : LoopState) (o : IterOutcome) : LoopState :=
  if st.is_running = false then st
  else match o with
    | .batch => { st with consecutive_errors := 0, sleeps := st.sleeps ++ [10] }
    | .noPending => { st with sleeps := st.sleeps ++ [30] }
    | .interrupt => { st with is_running := false }
    | .iterError =>
      let e := st.consecutive_errors + 1
      if errorStopThreshold ≤ e then
        { st with consecutive_errors := e, is_running := false }
      else
        { st with consecutive_errors := e, sleeps := st.sleeps ++ [errorBackoffBase * e] }

def initialLoopState : LoopState :=
  { is_running := true, consecutive_errors := 0, sleeps := [] }

def run_processing_loop (outcomes : List IterOutcome) : LoopState :=
  outcomes.foldl loopStep initialLoopState

/-- A call to `_add_followings_to_queue` as data (for quantifying over call
sequences). -/
structure EnqueueCall where
  parent : String
  followings : List String
  level : Nat
deriving Repr

def run_enqueues (db : DB) (calls : List EnqueueCall) : DB :=
  calls.foldl (fun d c => (add_followings_to_queue d c.parent c.followings c.level).1) db

end QueueManager

/-- Forward rank of the `AccountStatus` lifecycle described by the spec:
Pending before Processing before the Pass/Fail outcomes before Checked. -/
def statusRank : AccountStatus → Nat
  | .pending => 0
  | .processing => 1
  | .pass => 2
  | .fail => 2
  | .checked => 3

/-! ## Contact extractor (src/core/contact_extractor.py)

Executable translation of the regex-driven extraction, restricted to the
outputs the claims read: primary email, telegram link and username, website,
and the extracted link list.  Each compiled pattern of the source is
implemented as a character-level scanner with Python `re` semantics
(leftmost search, greedy quantifiers with backtracking where the pattern
needs it, `findall` advancing past each non-overlapping match).  The inputs
concerned are ASCII, and the character classes are the ASCII classes of the
source patterns. -/

namespace ContactExtractor

/-- Regex `\w` (ASCII): `[a-zA-Z0-9_]`. -/
def isWordChar (c : Char) : Bool := c.isAlphanum || c = '_'

/-- Class `[A-Za-z0-9._%+-]` (email local part). -/
def isLocalChar (c : Char) : Bool :=
  c.isAlphanum || c = '.' || c = '_' || c = '%' || c = '+' || c = '-'

/-- Class `[A-Za-z0-9.-]` (email domain). -/
def isDomainChar (c : Char) : Bool := c.isAlphanum || c = '.' || c = '-'

/-- Class `[A-Z|a-z]` (email top-level domain; the source class contains a
literal pipe character). -/
def isTldChar (c : Char) : Bool := c.isAlpha || c = '|'

/-- Regex `\b`: a position whose two neighbours disagree on word-character
membership (ends of the text count as non-word). -/
def isBoundary (prev next : Option Char) : Bool :=
  (match prev with | some c => isWordChar c | none => false) !=
    (match next with | some c => isWordChar c | none => false)

/-- Python `needle in hay` on character lists. -/
def containsSub (needle : List Char) : List Char → Bool
  | [] => needle.isEmpty
  | c :: t => needle.isPrefixOf (c :: t) || containsSub needle t

/-- Tail `[A-Z|a-z]{2,}\b` of the email pattern: the greedy quantifier
backtracks from the full letter run to the longest length `L ≥ 2` whose end
sits on a word boundary. -/
def tldLength (run : List Char) (after : Option Char) : Option Nat :=
  ((List.range (run.length + 1)).filter (fun L =>
      decide (2 ≤ L) && decide (L ≤ run.length) &&
        isBoundary (run.get? (L - 1))
          (if L < run.length then run.get? L else after))).getLast?

/-- One attempt of the email-domain part `[A-Za-z0-9.-]+\.[A-Z|a-z]{2,}\b`
with the greedy class cut at length `k` (so the literal dot must sit at
index `k`). -/
def emailDomainTry (s : List Char) (k : Nat) : Option (List Char) :=
  if s.get? k = some '.' then
    let rest := s.drop (k + 1)
    let run := rest.takeWhile isTldChar
    match tldLength run (rest.get? run.length) with
    | some L => some (s.take k ++ '.' :: run.take L)
    | none => none
  else none

/-- Backtracking of the greedy domain class, from length `k` down to 1. -/
def emailDomainSearch (s : List Char) : Nat → Option (List Char)
  | 0 => none
  | k + 1 =>
    match emailDomainTry s (k + 1) with
    | some r => some r
    | none => emailDomainSearch s k

/-- One attempt of the whole email pattern
`\b[A-Za-z0-9._%+-]+@[A-Za-z0-9.-]+\.[A-Z|a-z]{2,}\b` at the current
position (`prev` is the character before it).  The local-part class cannot
contain `@`, so its greedy match is forced; returns the match and the text
after it. -/
def emailMatchAt (prev : Option Char) (s : List Char) : Option (List Char × List Char) :=
  if isBoundary prev s.head? then
    let localPart := s.takeWhile isLocalChar
    if localPart.isEmpty then none
    else
      match s.drop localPart.length with
      | '@' :: afterAt =>
        match emailDomainSearch afterAt (afterAt.takeWhile isDomainChar).length with
        | some dm => some (localPart ++ '@' :: dm, afterAt.drop dm.length)
        | none => none
      | _ => none
  else none

/-- `findall` loop for the email pattern: leftmost, non-overlapping,
advancing one character after a failed attempt. -/
def emailFindAllAux : Nat → Option Char → List Char → List (List Char)
  | 0, _, _ => []
  | _ + 1, _, [] => []
  | fuel + 1, prev, c :: rest =>
    match emailMatchAt prev (c :: rest) with
    | some (m, after) => m :: emailFindAllAux fuel m.getLast? after
    | none => emailFindAllAux fuel (some c) rest

def emailFindAll (s : List Char) : List (List Char) :=
  emailFindAllAux (s.length + 1) none s

def invalidEmailPatterns : List (List Char) :=
  ["noreply@", "no-reply@", "example.com", "test.com",
   "yourdomain.com", "yoursite.com"].map String.data

/-- `ContactExtractor._is_invalid_email`. -/
def is_invalid_email (email : List Char) : Bool :=
  invalidEmailPatterns.any (fun p => containsSub p (email.map Char.toLower))

/-- `ContactExtractor._extract_emails`: all matches, deduplicated on their
lowercase form (first spelling kept), with false positives filtered out. -/
def extract_emails (s : List Char) : List (List Char) :=
  ((emailFindAll s).foldl
    (fun (acc : List (List Char) × List (List Char)) e =>
      let el := e.map Char.toLower
      if !acc.2.contains el && !is_invalid_email el then
        (acc.1 ++ [e], acc.2 ++ [el])
      else acc)
    ([], [])).1

/-- Class `[^\s<>"{}|\\^`\[\]]` of the URL pattern (brace and backtick
written via character codes). -/
def isUrlChar (c : Char) : Bool :=
  !(c = ' ' || c = '\t' || c = '\n' || c = '\r' || c = '<' || c = '>' ||
    c = '"' || c.toNat = 123 || c.toNat = 125 || c = '|' || c = '\\' ||
    c = '^' || c.toNat = 96 || c = '[' || c = ']')

/-- One attempt of `https?://[^\s<>"{}|\\^`\[\]]+` (case-insensitive) at the
current position; the optional `s` cannot be traded for the following `:`,
so no backtracking arises. -/
def urlMatchAt (s : List Char) : Option (List Char × List Char) :=
  match s with
  | c1 :: c2 :: c3 :: c4 :: t =>
    if c1.toLower = 'h' && c2.toLower = 't' && c3.toLower = 't' && c4.toLower = 'p' then
      let sch : List Char × List Char := match t with
        | c5 :: t' => if c5.toLower = 's' then ([c5], t') else ([], t)
        | [] => ([], t)
      match sch.2 with
      | ':' :: '/' :: '/' :: t3 =>
        let run := t3.takeWhile isUrlChar
        if run.isEmpty then none
        else some (c1 :: c2 :: c3 :: c4 :: (sch.1 ++ ':' :: '/' :: '/' :: run),
                   t3.drop run.length)
      | _ => none
    else none
  | _ => none

def urlFindAllAux : Nat → List Char → List (List Char)
  | 0, _ => []
  | _ + 1, [] => []
  | fuel + 1, c :: rest =>
    match urlMatchAt (c :: rest) with
    | some (m, after) => m :: urlFindAllAux fuel after
    | none => urlFindAllAux fuel rest

def urlFindAll (s : List Char) : List (List Char) :=
  urlFindAllAux (s.length + 1) s

/-- `url.rstrip('.,!?;:)')`. -/
def rstripPunct (s : List Char) : List Char :=
  (s.reverse.dropWhile (fun c =>
    c = '.' || c = ',' || c = '!' || c = '?' || c = ';' || c = ':' || c = ')')).reverse

/-- `ContactExtractor._extract_urls`: find all URLs, strip trailing
punctuation, deduplicate case-insensitively keeping the first spelling. -/
def extract_urls (s : List Char) : List (List Char) :=
  ((urlFindAll s).foldl
    (fun (acc : List (List Char) × List (List Char)) u =>
      let u2 := rstripPunct u
      let ul := u2.map Char.toLower
      if acc.2.contains ul then acc else (acc.1 ++ [u2], acc.2 ++ [ul]))
    ([], [])).1

/-- `re.search(r't\.me/([a-zA-Z0-9_]+)', url, re.IGNORECASE)`, group 1. -/
def tmeUsernameSearch : Nat → List Char → Option (List Char)
  | 0, _ => none
  | _ + 1, [] => none
  | fuel + 1, c :: rest =>
    match c :: rest with
    | c1 :: c2 :: c3 :: c4 :: c5 :: t =>
      if c1.toLower = 't' && c2 = '.' && c3.toLower = 'm' && c4.toLower = 'e' && c5 = '/' then
        let run := t.takeWhile isWordChar
        if run.isEmpty then tmeUsernameSearch fuel rest else some run
      else tmeUsernameSearch fuel rest
    | _ => none

/-- First telegram pattern `https://t\.me/[^\s]+` (case-insensitive),
group 0. -/
def telegramP1Search : Nat → List Char → Option (List Char)
  | 0, _ => none
  | _ + 1, [] => none
  | fuel + 1, c :: rest =>
    let s := c :: rest
    if ("https://t.me/".data).isPrefixOf (s.map Char.toLower) then
      let t := s.drop 13
      let run := t.takeWhile (fun ch => !(ch = ' ' || ch = '\t' || ch = '\n' || ch = '\r'))
      if run.isEmpty then telegramP1Search fuel rest
      else some (s.take 13 ++ run)
    else telegramP1Search fuel rest

/-- Second telegram pattern `@([a-zA-Z0-9_]{5,32})`, group 1 (greedy up to
32 word characters, at least 5). -/
def telegramP2Search : Nat → List Char → Option (List Char)
  | 0, _ => none
  | _ + 1, [] => none
  | fuel + 1, c :: rest =>
    if c = '@' then
      let run := rest.takeWhile isWordChar
      if 5 ≤ run.length then some (run.take 32)
      else telegramP2Search fuel rest
    else telegramP2Search fuel rest

/-- Tail `[@]?([a-zA-Z0-9_]{5,32})` of the third telegram pattern at one
position.  The optional `@` is tried first; if the group then fails, the
empty alternative would have to start the group at the `@` itself, which is
not a word character, so the tail fails at this position. -/
def telegramP3Tail (t : List Char) : Option (List Char) :=
  match t with
  | '@' :: t2 =>
    let run := t2.takeWhile isWordChar
    if 5 ≤ run.length then some (run.take 32) else none
  | _ =>
    let run := t.takeWhile isWordChar
    if 5 ≤ run.length then some (run.take 32) else none

/-- Lazy `.*?` expansion of the third telegram pattern: try the tail at the
current gap, else let the dot (which cannot match a newline) consume one
character and retry. -/
def telegramP3Lazy : Nat → List Char → Option (List Char)
  | 0, _ => none
  | fuel + 1, t =>
    match telegramP3Tail t with
    | some g => some g
    | none =>
      match t with
      | [] => none
      | c :: rest => if c = '\n' then none else telegramP3Lazy fuel rest

/-- Third telegram pattern `telegram.*?[@]?([a-zA-Z0-9_]{5,32})`
(case-insensitive), group 1. -/
def telegramP3Search : Nat → List Char → Option (List Char)
  | 0, _ => none
  | _ + 1, [] => none
  | fuel + 1, c :: rest =>
    let s := c :: rest
    if ("telegram".data).isPrefixOf (s.map Char.toLower) then
      match telegramP3Lazy (s.length + 1) (s.drop 8) with
      | some g => some g
      | none => telegramP3Search fuel rest
    else telegramP3Search fuel rest

/-- `username.replace('@', '')`. -/
def stripAtSigns (s : List Char) : List Char := s.filter (fun c => !(c = '@'))

structure TelegramData where
  link : Option (List Char)
  username : Option (List Char)
deriving DecidableEq, Repr

/-- The per-pattern candidates of the `_extract_telegram` text fallback, in
pattern order, each with `@` signs removed: group 1 where the pattern has a
group (`match.lastindex`), group 0 otherwise. -/
def telegramCandidates (text : List Char) : List (List Char) :=
  [(telegramP1Search (text.length + 1) text).map stripAtSigns,
   (telegramP2Search (text.length + 1) text).map stripAtSigns,
   (telegramP3Search (text.length + 1) text).map stripAtSigns].filterMap id

/-- `ContactExtractor._extract_telegram`: the first URL containing
`https://t.` wins (username recovered from it when it parses as a `t.me`
link); otherwise the first pattern whose candidate passes the 5–32 length
check sets the username, synthesizing `https://t.me/<username>` when no
link was found among the URLs.  A candidate failing the length check falls
through to the next pattern. -/
def extract_telegram (text : List Char) (urls : List (List Char)) : TelegramData :=
  let fromUrls : TelegramData :=
    match urls.find? (fun u => containsSub ("https://t.".data) (u.map Char.toLower)) with
    | some u => { link := some u, username := tmeUsernameSearch (u.length + 1) u }
    | none => { link := none, username := none }
  if fromUrls.username.isSome || text.isEmpty then fromUrls
  else
    match (telegramCandidates text).find? (fun u => 5 ≤ u.length && u.length ≤ 32) with
    | some u =>
      { username := some u
        link := match fromUrls.link with
          | some l => some l
          | none => some ("https://t.me/".data ++ u) }
    | none => fromUrls

/-- `self.social_domains` table, in insertion (iteration) order. -/
def socialDomainsTable : List (String × List String) :=
  [("youtube", ["youtube.com", "youtu.be"]),
   ("twitter", ["twitter.com", "x.com"]),
   ("facebook", ["facebook.com", "fb.com", "fb.me"]),
   ("linkedin", ["linkedin.com"]),
   ("tiktok", ["tiktok.com"]),
   ("snapchat", ["snapchat.com"]),
   ("pinterest", ["pinterest.com"]),
   ("twitch", ["twitch.tv"])]

/-- `urlparse(url).netloc` for the scheme-bearing URLs the extractor
produces: the text after the first `://` up to `/`, `?` or `#`; empty when
the text has no such authority marker. -/
def netlocAfterScheme : Nat → List Char → List Char
  | 0, _ => []
  | _ + 1, [] => []
  | fuel + 1, c :: rest =>
    if ("://".data).isPrefixOf (c :: rest) then
      (rest.drop 2).takeWhile (fun ch => !(ch = '/' || ch = '?' || ch = '#'))
    else netlocAfterScheme fuel rest

/-- Python `str.replace('www.', '')`: every occurrence, left to right. -/
def removeWWW : Nat → List Char → List Char
  | 0, s => s
  | _ + 1, [] => []
  | fuel + 1, c :: rest =>
    if ("www.".data).isPrefixOf (c :: rest) then removeWWW fuel rest.tail.tail.tail
    else c :: removeWWW fuel rest

/-- `urlparse(url.lower()).netloc.replace('www.', '')`. -/
def urlDomain (url : List Char) : List Char :=
  let lower := url.map Char.toLower
  removeWWW (lower.length + 1) (netlocAfterScheme (lower.length + 1) lower)

/-- `ContactExtractor._categorize_social_links`: first URL per platform,
platforms tested in table order against the URL's domain by substring. -/
def categorize_social_links (urls : List (List Char)) : List (String × List Char) :=
  urls.foldl
    (fun acc url =>
      let domain := urlDomain url
      match socialDomainsTable.find? (fun p => p.2.any (fun d => containsSub d.data domain)) with
      | some p => if acc.any (fun q => q.1 = p.1) then acc else acc ++ [(p.1, url)]
      | none => acc)
    []

/-- The messaging-domain test of `_extract_website` (`t.me`, `wa.me`,
`whatsapp` as substrings). -/
def messagingSub (l : List Char) : Bool :=
  containsSub ("t.me".data) l || containsSub ("wa.me".data) l ||
    containsSub ("whatsapp".data) l

/-- `ContactExtractor._extract_website`: the profile's external link wins
unless its domain matches a social or messaging domain; otherwise the first
extracted URL that is neither a categorized social link nor messaging-like. -/
def extract_website (all_links : List (List Char))
    (social_links : List (String × List Char))
    (external_url : Option (List Char)) : Option (List Char) :=
  let fromExternal : Option (List Char) :=
    match external_url with
    | some ext =>
      let domain := urlDomain ext
      let isSocial :=
        socialDomainsTable.any (fun p => p.2.any (fun d => containsSub d.data domain)) ||
          messagingSub domain
      if isSocial then none else some ext
    | none => none
  match fromExternal with
  | some w => some w
  | none =>
    let socialLower := social_links.map (fun q => q.2.map Char.toLower)
    all_links.find? (fun url =>
      let ul := url.map Char.toLower
      !(socialLower.contains ul) && !(messagingSub ul))

/-- The outputs of `extract_all` the claims read. -/
structure ContactRecord where
  email : Option String
  telegram : Option String
  telegram_username : Option String
  website : Option String
  all_links : List String
deriving DecidableEq, Repr

/-- `ContactExtractor._combine_text_sources` for the claim inputs (no
profile data): `' '.join` over the truthy parts. -/
def combine_text_sources (bio : String) (external_url : Option String) : List Char :=
  let parts := (if bio.data.isEmpty then [] else [bio.data]) ++
    (match external_url with
     | some e => if e.data.isEmpty then [] else [e.data]
     | none => [])
  match parts with
  | [] => []
  | p :: ps => ps.foldl (fun acc q => acc ++ ' ' :: q) p

/-- `ContactExtractor.extract_all` restricted to the email / telegram /
website outputs (phone and whatsapp extraction feed none of them). -/
def extract_all (bio : String) (external_url : Option String) : ContactRecord :=
  let all_text := combine_text_sources bio external_url
  let emails := extract_emails all_text
  let links := extract_urls all_text
  let td := extract_telegram all_text links
  let social := categorize_social_links links
  let website := extract_website links social (external_url.map String.data)
  { email := emails.head?.map List.asString
    telegram := td.link.map List.asString
    telegram_username := td.username.map List.asString
    website := website.map List.asString
    all_links := links.map List.asString }

end ContactExtractor

/-! ## Concrete fixtures used by counterexamples and witnesses -/

/-- Bio text of the spec's ContactExtractor scenario. -/
def c1Bio : String := "DM via t.me/janedoe or jane@example.com, shop: https://mystore.com"

/-- Five reels with 120000 views and 15000 likes+comments each. -/
def reels5 : List Reel :=
  List.replicate 5 { view_count := 120000, like_count := 14000, comment_count := 1000 }

/-- One pending discovered handle at level 1. -/
def dbAlice : DB :=
  { seeds := []
    discovered := [{ username := "alice", status := .pending, level := 1,
                     parent_username := some "seed1" }]
    passed := [] }

/-- Scrape outcome for "alice" that passes the default criteria
(600000 followers, avg views 120000, engagement 2.5%). -/
def aliceProfile : QueueManager.ProfileData :=
  { user_info := { username := "alice", followers_count := 600000,
                   following_count := 100, posts_count := 50, bio := "" }
    reels := reels5
    followings := [] }

/-- Two-identity pool at clock 10000: both identities hold 50 request
timestamps inside the trailing hour (at the cap); the first has a cached
client, the second does not but can log in. -/
def c7State : InstagramScraper.ScraperState :=
  { accounts :=
      [{ username := "acct_a", times := List.replicate 50 9000,
         hasClient := true, loginOk := true },
       { username := "acct_b", times := List.replicate 50 9000,
         hasClient := false, loginOk := true }]
    current_account_index := 0 }

/-! ## Shared evaluation lemmas for the fixtures -/

theorem engagement_reels5_600000 :
    (CriteriaChecker.check_engagement_rate defaultCriteriaConfig reels5 600000).2 = true := by
  simp [CriteriaChecker.check_engagement_rate, reels5, defaultCriteriaConfig, List.replicate]
  norm_num

theorem engagement_reels5_500000 :
    (CriteriaChecker.check_engagement_rate defaultCriteriaConfig reels5 500000).2 = true := by
  simp [CriteriaChecker.check_engagement_rate, reels5, defaultCriteriaConfig, List.replicate]
  norm_num

theorem engagement_reels5_499999 :
    (CriteriaChecker.check_engagement_rate defaultCriteriaConfig reels5 499999).2 = true := by
  simp [CriteriaChecker.check_engagement_rate, reels5, defaultCriteriaConfig, List.replicate]
  norm_num

theorem views_reels5 :
    (CriteriaChecker.check_reel_views defaultCriteriaConfig reels5).passed = true := by decide

theorem check_account_alice :
    CriteriaChecker.check_account defaultCriteriaConfig 600000 reels5 = true := by
  simp [CriteriaChecker.check_account, engagement_reels5_600000, views_reels5]
  decide

/-! ## Claim theorems -/

/-- C1 (counterexample): on the scenario bio, `extract_all` does not return
the Telegram username "janedoe" (the bare `t.me/janedoe` has no scheme, so
neither the URL extractor nor the first telegram pattern sees it; the
`@`-handle fallback pattern instead matches `@example` out of the email
address). -/
theorem C1_counterexample :
    (ContactExtractor.extract_all c1Bio none).telegram_username ≠ some "janedoe" ∧
    (ContactExtractor.extract_all c1Bio none).telegram ≠ some "https://t.me/janedoe" := by
  decide

/-- C1 (amended): on the scenario bio with no external link, `extract_all`
returns email = none (example.com is a filtered placeholder domain) and
website = "https://mystore.com" as claimed, but the messaging username is
"example" — recovered by the `@([a-zA-Z0-9_]{5,32})` fallback from the
email's `@` — with the synthesized link "https://t.me/example". -/
theorem C1_amended :
    ContactExtractor.extract_all c1Bio none =
      { email := none
        telegram := some "https://t.me/example"
        telegram_username := some "example"
        website := some "https://mystore.com"
        all_links := ["https://mystore.com"] } := by
  decide

/-- C5: `check_account` accepts exactly when all three gates pass (logical
AND); with the view and engagement gates held passing the decision is
`min_followers ≤ followers` (boundary inclusive), and it is monotone in the
follower count while the other gates are held passing. -/
theorem C5_check_account_correct (cfg : CriteriaConfig) (reels : List Reel) :
    (∀ f : Nat, CriteriaChecker.check_account cfg f reels = true ↔
        (CriteriaChecker.check_followers cfg f = true ∧
         (CriteriaChecker.check_reel_views cfg reels).passed = true ∧
         (CriteriaChecker.check_engagement_rate cfg reels f).2 = true)) ∧
    (∀ f : Nat, (CriteriaChecker.check_reel_views cfg reels).passed = true →
        (CriteriaChecker.check_engagement_rate cfg reels f).2 = true →
        (CriteriaChecker.check_account cfg f reels = true ↔ cfg.min_followers ≤ f)) ∧
    (∀ f1 f2 : Nat, f1 ≤ f2 →
        (CriteriaChecker.check_reel_views cfg reels).passed = true →
        (CriteriaChecker.check_engagement_rate cfg reels f1).2 = true →
        (CriteriaChecker.check_engagement_rate cfg reels f2).2 = true →
        CriteriaChecker.check_account cfg f1 reels = true →
        CriteriaChecker.check_account cfg f2 reels = true) := by
  refine ⟨fun f => ?_, fun f hv he => ?_, fun f1 f2 hle hv he1 he2 h1 => ?_⟩
  · simp [CriteriaChecker.check_account, Bool.and_eq_true, and_assoc]
  · simp [CriteriaChecker.check_account, CriteriaChecker.check_followers, hv, he]
  · simp only [CriteriaChecker.check_account, CriteriaChecker.check_followers,
      hv, he1, Bool.and_true, Bool.true_and, decide_eq_true_eq] at h1
    simp only [CriteriaChecker.check_account, CriteriaChecker.check_followers,
      hv, he2, Bool.and_true, Bool.true_and, decide_eq_true_eq]
    omega

/-- Witness for C5 at the default thresholds: 500000 followers (the exact
boundary) passes with the other gates passing; 499999 fails. -/
theorem C5_check_account_correct_witness :
    CriteriaChecker.check_account defaultCriteriaConfig 500000 reels5 = true ∧
    CriteriaChecker.check_account defaultCriteriaConfig 499999 reels5 = false := by
  constructor
  · exact ((C5_check_account_correct defaultCriteriaConfig reels5).2.1 500000
      views_reels5 engagement_reels5_500000).mpr (by decide)
  · rcases Bool.eq_false_or_eq_true
      (CriteriaChecker.check_account defaultCriteriaConfig 499999 reels5) with ht | hf
    · exact absurd (((C5_check_account_correct defaultCriteriaConfig reels5).2.1 499999
        views_reels5 engagement_reels5_499999).mp ht) (by decide)
    · exact hf

/-- C6: the view gate hard-fails on an empty activity list with the
no-activity rationale; otherwise the average is the floor division of the
total views by the number of available items, passing exactly when it
reaches the threshold. -/
theorem C6_check_reel_views_correct (cfg : CriteriaConfig) (reels : List Reel) :
    (reels.length = 0 →
      CriteriaChecker.check_reel_views cfg reels =
        { avg_views := 0, passed := false,
          fail_reason := some "No reels found to calculate views" }) ∧
    (reels.length ≠ 0 →
      (CriteriaChecker.check_reel_views cfg reels).avg_views =
          (reels.map Reel.view_count).sum / reels.length ∧
      ((CriteriaChecker.check_reel_views cfg reels).passed = true ↔
        cfg.min_avg_reel_views ≤ (reels.map Reel.view_count).sum / reels.length)) := by
  constructor
  · intro h
    simp [CriteriaChecker.check_reel_views, h]
  · intro h
    simp [CriteriaChecker.check_reel_views, h]

/-- Witness for C6: the empty list hard-fails with the rationale; the
five-reel fixture averages 120000 by floor division. -/
theorem C6_check_reel_views_correct_witness :
    CriteriaChecker.check_reel_views defaultCriteriaConfig [] =
      { avg_views := 0, passed := false,
        fail_reason := some "No reels found to calculate views" } ∧
    (CriteriaChecker.check_reel_views defaultCriteriaConfig reels5).avg_views = 120000 := by
  constructor
  · exact (C6_check_reel_views_correct defaultCriteriaConfig []).1 rfl
  · have h := ((C6_check_reel_views_correct defaultCriteriaConfig reels5).2 (by decide)).1
    rw [h]
    decide

/-- Helper: a single `addOneFollowing` preserves the single-table occupancy
invariant (its three existence checks refuse any handle already present). -/
theorem multiTabled_addOneFollowing (db : DB) (p f : String) (l : Nat)
    (h : ∀ u, db.multiTabled u = false) :
    ∀ u, ((QueueManager.addOneFollowing db p f l).1).multiTabled u = false := by
  intro u
  unfold QueueManager.addOneFollowing
  split_ifs with h1 h2 h3
  · exact h u
  · exact h u
  · exact h u
  · have hu := h u
    by_cases hv : f = u
    · subst hv
      simp only [Bool.not_eq_true] at h1 h2 h3
      simp [DB.multiTabled, DB.inSeeds, DB.inDiscovered, DB.inPassed, h1, h2, h3] at *
      exact ⟨⟨h3, fun _ _ _ => h2⟩, h2⟩
    · simpa [DB.multiTabled, DB.inSeeds, DB.inDiscovered, DB.inPassed,
        List.any_append, hv] using hu

/-- Helper: `_add_followings_to_queue` preserves the single-table occupancy
invariant. -/
theorem multiTabled_add_followings (db : DB) (p : String) (fs : List String) (l : Nat)
    (h : ∀ u, db.multiTabled u = false) :
    ∀ u, ((QueueManager.add_followings_to_queue db p fs l).1).multiTabled u = false := by
  unfold QueueManager.add_followings_to_queue
  suffices hgen : ∀ (gs : List String) (acc : DB × Nat), (∀ u, acc.1.multiTabled u = false) →
      ∀ u, ((gs.foldl (fun acc f =>
        let step := QueueManager.addOneFollowing acc.1 p f l
        (step.1, acc.2 + (if step.2 then 1 else 0))) acc).1).multiTabled u = false by
    exact hgen fs (db, 0) h
  intro gs
  induction gs with
  | nil => intro acc ha; exact ha
  | cons f gs ih =>
    intro acc ha
    simp only [List.foldl_cons]
    exact ih _ (multiTabled_addOneFollowing acc.1 p f l ha)

/-- C2 (counterexample): processing the discovered handle "alice", which
passes the criteria, stores it into passed_influencers while its row stays
in discovered_accounts (`_store_passed_influencer` checks only the accepted
table, and the discovered row is merely status-updated, never removed), so
the handle then occupies two of the three record sets at once. -/
theorem C2_counterexample :
    ((QueueManager.process_username defaultCriteriaConfig defaultMaxLevel dbAlice
        "alice" 1 .discovered (some aliceProfile)).db.inDiscovered "alice" = true) ∧
    ((QueueManager.process_username defaultCriteriaConfig defaultMaxLevel dbAlice
        "alice" 1 .discovered (some aliceProfile)).db.inPassed "alice" = true) ∧
    ((QueueManager.process_username defaultCriteriaConfig defaultMaxLevel dbAlice
        "alice" 1 .discovered (some aliceProfile)).db.multiTabled "alice" = true) := by
  have ha : CriteriaChecker.check_account defaultCriteriaConfig
      aliceProfile.user_info.followers_count aliceProfile.reels = true := check_account_alice
  simp only [QueueManager.process_username, ha]
  decide

/-- C2 (amended): across every sequence of followings-enqueue calls the
invariant does hold — a handle present in any of the three record sets is
never inserted into Discovered, so no enqueue sequence ever puts a handle
into more than one set; it is the accept-and-store path that breaks the
claimed invariant (see the counterexample). -/
theorem C2_amended (calls : List QueueManager.EnqueueCall) (db : DB)
    (h : ∀ u, db.multiTabled u = false) :
    ∀ u, (QueueManager.run_enqueues db calls).multiTabled u = false := by
  induction calls generalizing db with
  | nil => exact h
  | cons c cs ih =>
    simp only [QueueManager.run_enqueues, List.foldl_cons]
    exact ih _ (multiTabled_add_followings db c.parent c.followings c.level h)

/-- Witness for C2 (amended): a seed plus one enqueue containing the seed
itself and a duplicate handle leaves "bob" (and every handle) in at most
one table. -/
theorem C2_amended_witness :
    (QueueManager.run_enqueues
      { seeds := [{ username := "seed1", status := .pending }], discovered := [], passed := [] }
      [{ parent := "seed1", followings := ["bob", "seed1", "bob"], level := 1 }]).multiTabled
        "bob" = false :=
  C2_amended _ _
    (by intro u; simp [DB.multiTabled, DB.inSeeds, DB.inDiscovered, DB.inPassed]) "bob"

/-- C3 (counterexample): `_add_followings_to_queue` applies no level check:
called with level 5 (above the default max level 4) on an empty store it
still inserts the handle, so the Discovered count changes. -/
theorem C3_counterexample :
    defaultMaxLevel < 5 ∧
    ((QueueManager.add_followings_to_queue { seeds := [], discovered := [], passed := [] }
        "parent" ["bob"] 5).1.discovered.length = 1) := by
  decide

/-- Helper: membership in the discovered table after a status update comes
from a record of the original table with the same level. -/
theorem mem_setDiscStatus_level (db : DB) (u : String) (s : AccountStatus) (r : DiscRec)
    (hr : r ∈ (db.setDiscStatus u s).discovered) :
    ∃ r0 ∈ db.discovered, r.level = r0.level := by
  simp only [DB.setDiscStatus, List.mem_map] at hr
  obtain ⟨r0, hr0, hre⟩ := hr
  refine ⟨r0, hr0, ?_⟩
  by_cases hc : r0.username = u
  · simp only [if_pos hc] at hre
    rw [← hre]
  · simp only [if_neg hc] at hre
    rw [← hre]

/-- Helper: `_store_passed_influencer` never touches the discovered table. -/
theorem discovered_store_passed (db : DB) (u : String) (l : Nat) :
    (QueueManager.store_passed_influencer db u l).discovered = db.discovered := by
  unfold QueueManager.store_passed_influencer
  split <;> rfl

/-- Helper: a record present after `addOneFollowing` was either already
present or was inserted at exactly the requested level. -/
theorem mem_addOneFollowing_level (db : DB) (p f : String) (l : Nat) (r : DiscRec)
    (hr : r ∈ ((QueueManager.addOneFollowing db p f l).1).discovered) :
    r ∈ db.discovered ∨ r.level = l := by
  unfold QueueManager.addOneFollowing at hr
  split_ifs at hr
  · exact Or.inl hr
  · exact Or.inl hr
  · exact Or.inl hr
  · simp only [List.mem_append, List.mem_singleton] at hr
    rcases hr with hr | hr
    · exact Or.inl hr
    · subst hr
      exact Or.inr rfl

/-- Helper: a record present after `_add_followings_to_queue` was either
already present or was inserted at exactly the requested level. -/
theorem mem_add_followings_level (db : DB) (p : String) (fs : List String) (l : Nat)
    (r : DiscRec)
    (hr : r ∈ ((QueueManager.add_followings_to_queue db p fs l).1).discovered) :
    r ∈ db.discovered ∨ r.level = l := by
  unfold QueueManager.add_followings_to_queue at hr
  suffices hgen : ∀ (gs : List String) (acc : DB × Nat),
      r ∈ ((gs.foldl (fun acc f =>
        let step := QueueManager.addOneFollowing acc.1 p f l
        (step.1, acc.2 + (if step.2 then 1 else 0))) acc).1).discovered →
      r ∈ acc.1.discovered ∨ r.level = l by
    exact hgen fs (db, 0) hr
  intro gs
  induction gs with
  | nil => intro acc ha; exact Or.inl ha
  | cons f gs ih =>
    intro acc ha
    simp only [List.foldl_cons] at ha
    rcases ih _ ha with hm | hl
    · exact mem_addOneFollowing_level acc.1 p f l r hm
    · exact Or.inr hl

/-- Helper: status updates preserve every level bound on the discovered
table. -/
theorem levels_setDiscStatus (db : DB) (u : String) (s : AccountStatus) (M : Nat)
    (h : ∀ r ∈ db.discovered, r.level ≤ M) :
    ∀ r ∈ (db.setDiscStatus u s).discovered, r.level ≤ M := by
  intro r hr
  obtain ⟨r0, hr0, hl⟩ := mem_setDiscStatus_level db u s r hr
  rw [hl]
  exact h r0 hr0

/-- Helper: enqueueing at a level within the bound preserves the bound. -/
theorem levels_add_followings (db : DB) (p : String) (fs : List String) (l M : Nat)
    (hl : l ≤ M) (h : ∀ r ∈ db.discovered, r.level ≤ M) :
    ∀ r ∈ ((QueueManager.add_followings_to_queue db p fs l).1).discovered, r.level ≤ M := by
  intro r hr
  rcases mem_add_followings_level db p fs l r hr with hm | he
  · exact h r hm
  · omega

/-- Helper: the guarded enqueue step of `process_username` (enqueue at
`level + 1` only when `level < max_level`) preserves the level bound. -/
theorem levels_enqueue_guard (db : DB) (username : String) (followings : List String)
    (level max_level : Nat) (h : ∀ r ∈ db.discovered, r.level ≤ max_level) :
    ∀ r ∈ ((if level < max_level then
        QueueManager.add_followings_to_queue db username followings (level + 1)
      else (db, 0)).1).discovered, r.level ≤ max_level := by
  split
  · next hlt =>
    exact levels_add_followings db username followings (level + 1) max_level (by omega) h
  · exact h

/-- Helper: the conditional accept-store step never touches the discovered
table. -/
theorem levels_store_if (db : DB) (b : Bool) (u : String) (l max_level : Nat)
    (h : ∀ r ∈ db.discovered, r.level ≤ max_level) :
    ∀ r ∈ (if b then QueueManager.store_passed_influencer db u l else db).discovered,
      r.level ≤ max_level := by
  split
  · intro r hr
    rw [discovered_store_passed] at hr
    exact h r hr
  · exact h

/-- C3 (amended): `_add_followings_to_queue` itself applies no level check
(see the counterexample), but its only caller guards it — `process_username`
enqueues only when `level < max_level`, and then at `level + 1` — so the
processing path keeps every Discovered record's level within `max_level`. -/
theorem C3_amended (cfg : CriteriaConfig) (max_level : Nat) (db : DB) (username : String)
    (level : Nat) (utype : QueueManager.UType) (pd : Option QueueManager.ProfileData)
    (h : ∀ r ∈ db.discovered, r.level ≤ max_level) :
    ∀ r ∈ (QueueManager.process_username cfg max_level db username level utype pd).db.discovered,
      r.level ≤ max_level := by
  unfold QueueManager.process_username
  cases pd with
  | none =>
    cases utype
    · exact h
    · exact levels_setDiscStatus _ _ _ _ (levels_setDiscStatus _ _ _ _ h)
  | some pd =>
    cases utype with
    | seed =>
      exact levels_enqueue_guard _ _ _ _ _ (levels_store_if _ _ _ _ _ h)
    | discovered =>
      exact levels_setDiscStatus _ _ _ _
        (levels_enqueue_guard _ _ _ _ _
          (levels_setDiscStatus _ _ _ _
            (levels_store_if _ _ _ _ _
              (levels_setDiscStatus _ _ _ _ h))))

/-- Witness for C3 (amended): processing the level-1 handle "alice" keeps
every discovered level within the default cap. -/
theorem C3_amended_witness :
    (QueueManager.process_username defaultCriteriaConfig defaultMaxLevel dbAlice "alice" 1
      .discovered (some aliceProfile)).db.discovered.all
        (fun r => r.level ≤ defaultMaxLevel) = true := by
  have h := C3_amended defaultCriteriaConfig defaultMaxLevel dbAlice "alice" 1 .discovered
    (some aliceProfile) (by decide)
  simp only [List.all_eq_true, decide_eq_true_eq]
  exact h

/-- C4 (counterexample): a discovered handle that passes the criteria does
not end the operation with status PASS — the closing "mark as checked"
write overwrites the terminal PASS with CHECKED. -/
theorem C4_counterexample :
    ((QueueManager.process_username defaultCriteriaConfig defaultMaxLevel dbAlice "alice" 1
        .discovered (some aliceProfile)).passed = true) ∧
    ((QueueManager.process_username defaultCriteriaConfig defaultMaxLevel dbAlice "alice" 1
        .discovered (some aliceProfile)).discWrites =
      [.processing, .pass, .checked]) ∧
    ((QueueManager.process_username defaultCriteriaConfig defaultMaxLevel dbAlice "alice" 1
        .discovered (some aliceProfile)).db.discovered.map DiscRec.status =
      [AccountStatus.checked]) := by
  have ha : CriteriaChecker.check_account defaultCriteriaConfig
      aliceProfile.user_info.followers_count aliceProfile.reels = true := check_account_alice
  simp only [QueueManager.process_username, ha]
  decide

/-- C4 (amended): the status writes of the processing path do move only
forward — Pending, Processing, then a Pass/Fail outcome, then Checked, with
strictly increasing rank — but the path ends a successfully evaluated
discovered handle at CHECKED (the Pass/Fail write is transient), and only
the fetch-failure path ends at FAIL. -/
theorem C4_amended (cfg : CriteriaConfig) (max_level : Nat) (db : DB) (username : String)
    (level : Nat) (pd : Option QueueManager.ProfileData) :
    List.Chain' (fun a b => statusRank a < statusRank b)
      (AccountStatus.pending ::
        (QueueManager.process_username cfg max_level db username level .discovered
          pd).discWrites) ∧
    (pd = none →
      (QueueManager.process_username cfg max_level db username level .discovered pd).discWrites =
        [.processing, .fail]) ∧
    (∀ d, pd = some d →
      (QueueManager.process_username cfg max_level db username level .discovered pd).discWrites =
        [.processing,
         if (QueueManager.process_username cfg max_level db username level .discovered pd).passed
           then .pass else .fail,
         .checked]) := by
  refine ⟨?_, ?_, ?_⟩
  · cases pd with
    | none =>
      simp [QueueManager.process_username, List.chain'_cons, statusRank]
    | some d =>
      cases hp : CriteriaChecker.check_account cfg d.user_info.followers_count d.reels <;>
        simp [QueueManager.process_username, hp, List.chain'_cons, statusRank]
  · intro hn
    subst hn
    rfl
  · intro d hd
    subst hd
    cases hp : CriteriaChecker.check_account cfg d.user_info.followers_count d.reels <;>
      simp [QueueManager.process_username, hp]

/-- Witness for C4 (amended) at the passing fixture. -/
theorem C4_amended_witness :
    (QueueManager.process_username defaultCriteriaConfig defaultMaxLevel dbAlice "alice" 1
      .discovered (some aliceProfile)).discWrites =
        [.processing,
         if (QueueManager.process_username defaultCriteriaConfig defaultMaxLevel dbAlice "alice" 1
            .discovered (some aliceProfile)).passed then .pass else .fail,
         .checked] :=
  (C4_amended defaultCriteriaConfig defaultMaxLevel dbAlice "alice" 1 (some aliceProfile)).2.2
    aliceProfile rfl

/-- Helper: after storing, the handle is present in the accepted table. -/
theorem store_passed_inPassed (db : DB) (u : String) (l : Nat) :
    (QueueManager.store_passed_influencer db u l).inPassed u = true := by
  unfold QueueManager.store_passed_influencer
  split
  · next h => exact h
  · simp [DB.inPassed, List.any_append]

/-- Helper: storing a handle already present in the accepted table is a
no-op. -/
theorem store_passed_noop (db : DB) (u : String) (l : Nat) (h : db.inPassed u = true) :
    QueueManager.store_passed_influencer db u l = db := by
  unfold QueueManager.store_passed_influencer
  simp [h]

/-- C9: the accept-and-store path is idempotent on handle — a second call
with the same handle is a no-op, and starting from a store without the
handle, one call leaves exactly one accepted record for it. -/
theorem C9_store_idempotent (db : DB) (u : String) (l1 l2 : Nat) :
    QueueManager.store_passed_influencer (QueueManager.store_passed_influencer db u l1) u l2 =
      QueueManager.store_passed_influencer db u l1 ∧
    (db.inPassed u = false →
      ((QueueManager.store_passed_influencer db u l1).passed.filter
          (fun r => r.username = u)).length = 1) := by
  constructor
  · exact store_passed_noop _ _ _ (store_passed_inPassed db u l1)
  · intro h
    unfold QueueManager.store_passed_influencer
    rw [if_neg (by simp [h])]
    have hnil : db.passed.filter (fun r => r.username = u) = [] := by
      rw [List.filter_eq_nil_iff]
      intro a ha
      simp only [DB.inPassed, List.any_eq_false] at h
      simpa using h a ha
    simp [List.filter_append, hnil]

/-- Witness for C9: two stores of "alice" on the empty store coincide with
one, which holds exactly one record for "alice". -/
theorem C9_store_idempotent_witness :
    (QueueManager.store_passed_influencer
        (QueueManager.store_passed_influencer
          { seeds := [], discovered := [], passed := [] } "alice" 1) "alice" 2 =
      QueueManager.store_passed_influencer
        { seeds := [], discovered := [], passed := [] } "alice" 1) ∧
    ((QueueManager.store_passed_influencer
        { seeds := [], discovered := [], passed := [] } "alice" 1).passed.filter
          (fun r => r.username = "alice")).length = 1 :=
  ⟨(C9_store_idempotent { seeds := [], discovered := [], passed := [] } "alice" 1 2).1,
   (C9_store_idempotent { seeds := [], discovered := [], passed := [] } "alice" 1 2).2 (by decide)⟩

/-- C10 (implicit claim): when the reel fetch fails, `get_user_reels`
returns `[]` instead of surfacing the error; the candidate is then
evaluated with zero activity items, hard-fails the view gate (with the
no-activity rationale) and the engagement gate, and the operation completes
as an ordinary criteria rejection — success with no error — rather than as
a retriable failure. -/
theorem C10_reel_fetch_failure_rejects (cfg : CriteriaConfig) (max_level : Nat) (db : DB)
    (username : String) (level : Nat) (ui : QueueManager.UserInfo)
    (followings : List String) (e : String) :
    InstagramScraper.get_user_reels 5 (Except.error e) = [] ∧
    (CriteriaChecker.check_reel_views cfg
      (InstagramScraper.get_user_reels 5 (Except.error e))).passed = false ∧
    (CriteriaChecker.check_reel_views cfg
      (InstagramScraper.get_user_reels 5 (Except.error e))).fail_reason =
        some "No reels found to calculate views" ∧
    (CriteriaChecker.check_engagement_rate cfg
      (InstagramScraper.get_user_reels 5 (Except.error e)) ui.followers_count).2 = false ∧
    (QueueManager.process_username cfg max_level db username level .discovered
        (some { user_info := ui, reels := InstagramScraper.get_user_reels 5 (Except.error e),
                followings := followings })).passed = false ∧
    (QueueManager.process_username cfg max_level db username level .discovered
        (some { user_info := ui, reels := InstagramScraper.get_user_reels 5 (Except.error e),
                followings := followings })).success = true ∧
    (QueueManager.process_username cfg max_level db username level .discovered
        (some { user_info := ui, reels := InstagramScraper.get_user_reels 5 (Except.error e),
                followings := followings })).error = none := by
  have hacc : CriteriaChecker.check_account cfg ui.followers_count
      (InstagramScraper.get_user_reels 5 (Except.error e)) = false := by
    simp [CriteriaChecker.check_account, CriteriaChecker.check_reel_views,
      InstagramScraper.get_user_reels]
  refine ⟨rfl, ?_, ?_, ?_, hacc, rfl, rfl⟩
  · simp [CriteriaChecker.check_reel_views, InstagramScraper.get_user_reels]
  · simp [CriteriaChecker.check_reel_views, InstagramScraper.get_user_reels]
  · simp [CriteriaChecker.check_engagement_rate, InstagramScraper.get_user_reels]

/-- C8: in the run loop, every iteration-level exception increments the
consecutive-error counter; the loop stops once the counter reaches 5 (it
never continues past 5); with fewer errors it sleeps the linear backoff
30 x consecutive_errors and continues; and a completed batch resets the
counter to zero. -/
theorem C8_loop_error_policy :
    (∀ st : QueueManager.LoopState, st.is_running = true →
      (QueueManager.loopStep st .iterError).consecutive_errors = st.consecutive_errors + 1) ∧
    (∀ st : QueueManager.LoopState, st.is_running = true →
      5 ≤ st.consecutive_errors + 1 →
      (QueueManager.loopStep st .iterError).is_running = false) ∧
    (∀ st : QueueManager.LoopState, st.is_running = true →
      st.consecutive_errors + 1 < 5 →
      (QueueManager.loopStep st .iterError).is_running = true ∧
      (QueueManager.loopStep st .iterError).sleeps =
        st.sleeps ++ [30 * (st.consecutive_errors + 1)]) ∧
    (∀ st : QueueManager.LoopState, st.is_running = true →
      (QueueManager.loopStep st .batch).consecutive_errors = 0) ∧
    (∀ outcomes : List QueueManager.IterOutcome,
      (QueueManager.run_processing_loop outcomes).consecutive_errors ≤ 5 ∧
      ((QueueManager.run_processing_loop outcomes).consecutive_errors = 5 →
        (QueueManager.run_processing_loop outcomes).is_running = false)) := by
  refine ⟨?_, ?_, ?_, ?_, ?_⟩
  · intro st h
    simp [QueueManager.loopStep, h]
    split <;> rfl
  · intro st h h5
    simp [QueueManager.loopStep, h, QueueManager.errorStopThreshold, h5]
  · intro st h h5
    have hn : ¬ (QueueManager.errorStopThreshold ≤ st.consecutive_errors + 1) := by
      simp only [QueueManager.errorStopThreshold]
      omega
    simp [QueueManager.loopStep, h, hn, QueueManager.errorBackoffBase]
  · intro st h
    simp [QueueManager.loopStep, h]
  · have step : ∀ (st : QueueManager.LoopState) (o : QueueManager.IterOutcome),
        st.consecutive_errors ≤ 5 → (st.is_running = true → st.consecutive_errors < 5) →
        ((QueueManager.loopStep st o).consecutive_errors ≤ 5 ∧
          ((QueueManager.loopStep st o).is_running = true →
            (QueueManager.loopStep st o).consecutive_errors < 5)) := by
      intro st o h1 h2
      by_cases hr : st.is_running = true
      · have h3 := h2 hr
        cases o with
        | batch => simp [QueueManager.loopStep, hr]
        | noPending =>
          simp [QueueManager.loopStep, hr]
          omega
        | interrupt =>
          simp [QueueManager.loopStep, hr]
          omega
        | iterError =>
          simp only [QueueManager.loopStep, hr, QueueManager.errorStopThreshold,
            QueueManager.errorBackoffBase]
          simp
          split_ifs with h5
          · simp
            omega
          · simp
            omega
      · have hf : st.is_running = false := by
          revert hr
          cases st.is_running <;> simp
        have hid : QueueManager.loopStep st o = st := by
          simp [QueueManager.loopStep, hf]
        rw [hid]
        exact ⟨h1, h2⟩
    have inv : ∀ (os : List QueueManager.IterOutcome) (st : QueueManager.LoopState),
        st.consecutive_errors ≤ 5 → (st.is_running = true → st.consecutive_errors < 5) →
        ((os.foldl QueueManager.loopStep st).consecutive_errors ≤ 5 ∧
          ((os.foldl QueueManager.loopStep st).is_running = true →
            (os.foldl QueueManager.loopStep st).consecutive_errors < 5)) := by
      intro os
      induction os with
      | nil => intro st h1 h2; exact ⟨h1, h2⟩
      | cons o os ih =>
        intro st h1 h2
        simp only [List.foldl_cons]
        obtain ⟨h1s, h2s⟩ := step st o h1 h2
        exact ih _ h1s h2s
    intro outcomes
    simp only [QueueManager.run_processing_loop]
    obtain ⟨hle, himp⟩ := inv outcomes QueueManager.initialLoopState (by decide) (fun _ => by decide)
    refine ⟨hle, fun h5 => ?_⟩
    cases hb : (outcomes.foldl QueueManager.loopStep QueueManager.initialLoopState).is_running
    · rfl
    · exact absurd (himp hb) (by omega)

/-- Witness for C8 at concrete loop states and a concrete outcome trace. -/
theorem C8_loop_error_policy_witness :
    (QueueManager.loopStep { is_running := true, consecutive_errors := 0, sleeps := [] }
      .iterError).consecutive_errors = 1 ∧
    (QueueManager.loopStep { is_running := true, consecutive_errors := 4, sleeps := [] }
      .iterError).is_running = false ∧
    (QueueManager.loopStep { is_running := true, consecutive_errors := 1, sleeps := [] }
      .iterError).sleeps = [60] ∧
    (QueueManager.loopStep { is_running := true, consecutive_errors := 3, sleeps := [] }
      .batch).consecutive_errors = 0 ∧
    (QueueManager.run_processing_loop [.iterError, .iterError]).consecutive_errors ≤ 5 := by
  refine ⟨C8_loop_error_policy.1 _ rfl, C8_loop_error_policy.2.1 _ rfl (by decide), ?_,
    C8_loop_error_policy.2.2.2.1 _ rfl,
    (C8_loop_error_policy.2.2.2.2 [.iterError, .iterError]).1⟩
  have h := (C8_loop_error_policy.2.2.1
    { is_running := true, consecutive_errors := 1, sleeps := [] } rfl (by decide)).2
  simpa using h

/-- C7 (counterexample): a pool whose identities have both reached the
hourly cap does not raise an exhaustion error: rotation fresh-logins the
second identity (which has no cached client), which resets its request
history, and `_get_current_client` returns it despite its trailing-hour
count having reached the cap. -/
theorem C7_counterexample :
    InstagramScraper.check_hourly_rate_limit 10000 (List.replicate 50 (9000 : Int)) = false ∧
    InstagramScraper.get_current_client 10000 c7State = some "acct_b" := by
  decide

theorem rotate_length (st : InstagramScraper.ScraperState) :
    (InstagramScraper.rotateAccount st).accounts.length = st.accounts.length := by
  simp only [InstagramScraper.rotateAccount]
  split
  · rfl
  · split
    · rfl
    · simp

theorem rotate_idx (st : InstagramScraper.ScraperState) :
    (InstagramScraper.rotateAccount st).current_account_index =
      (st.current_account_index + 1) % st.accounts.length := by
  simp only [InstagramScraper.rotateAccount]
  split
  · rfl
  · split <;> rfl

theorem rotate_get?_ne (st : InstagramScraper.ScraperState) (i : Nat)
    (hi : i ≠ (st.current_account_index + 1) % st.accounts.length) :
    (InstagramScraper.rotateAccount st).accounts.get? i = st.accounts.get? i := by
  simp only [InstagramScraper.rotateAccount]
  split
  · rfl
  · split
    · rfl
    · exact List.get?_set_ne _ _ (Ne.symm hi)

theorem rotate_get?_j (st : InstagramScraper.ScraperState) (a : InstagramScraper.Identity)
    (ha : st.accounts.get? ((st.current_account_index + 1) % st.accounts.length) = some a)
    (hj : (st.current_account_index + 1) % st.accounts.length < st.accounts.length) :
    (InstagramScraper.rotateAccount st).accounts.get?
        ((st.current_account_index + 1) % st.accounts.length) =
      some (if a.hasClient then a else InstagramScraper.loginAccount a) := by
  simp only [InstagramScraper.rotateAccount]
  split
  · next hnone => rw [hnone] at ha; cases ha
  · next a2 ha2 =>
    rw [ha2] at ha
    injection ha with haa
    subst haa
    rw [List.get?_eq_getElem?] at ha2
    split
    · next h => simp [ha2, h]
    · next h => simp [List.getElem?_set_eq_of_lt _ hj, h]

theorem check_rate_empty (now : Int) :
    InstagramScraper.check_hourly_rate_limit now [] = true := by
  simp [InstagramScraper.check_hourly_rate_limit, InstagramScraper.maxRequestsPerHour]

theorem usableNow_transform (now : Int) (a : InstagramScraper.Identity) :
    InstagramScraper.usableNow now (if a.hasClient then a else InstagramScraper.loginAccount a) =
      InstagramScraper.usableNext now a := by
  by_cases h1 : a.hasClient = true
  · simp [h1, InstagramScraper.usableNow, InstagramScraper.usableNext]
  · by_cases h2 : a.loginOk = true
    · simp [h1, h2, InstagramScraper.usableNow, InstagramScraper.usableNext,
        InstagramScraper.loginAccount, check_rate_empty]
    · simp [h1, h2, InstagramScraper.usableNow, InstagramScraper.usableNext,
        InstagramScraper.loginAccount]

theorem username_transform (a : InstagramScraper.Identity) :
    (if a.hasClient then a else InstagramScraper.loginAccount a).username = a.username := by
  by_cases h1 : a.hasClient = true
  · simp [h1]
  · by_cases h2 : a.loginOk = true <;> simp [h1, h2, InstagramScraper.loginAccount]

theorem getD_eq_get? (l : List InstagramScraper.Identity) (i : Nat)
    (d : InstagramScraper.Identity) : l.getD i d = (l.get? i).getD d := rfl

theorem ringAt_rotate_zero (st : InstagramScraper.ScraperState)
    (a : InstagramScraper.Identity)
    (ha : st.accounts.get? ((st.current_account_index + 1) % st.accounts.length) = some a)
    (hn : 0 < st.accounts.length) :
    InstagramScraper.ringAt (InstagramScraper.rotateAccount st) 0 =
      (if a.hasClient then a else InstagramScraper.loginAccount a) := by
  have hj : (st.current_account_index + 1) % st.accounts.length < st.accounts.length :=
    Nat.mod_lt _ hn
  have hlen := rotate_length st
  have hidx := rotate_idx st
  unfold InstagramScraper.ringAt
  rw [hlen, hidx, Nat.add_zero, Nat.mod_eq_of_lt hj, getD_eq_get?, rotate_get?_j st a ha hj]
  rfl

theorem ringAt_rotate_succ (st : InstagramScraper.ScraperState) (k : Nat)
    (hn : 0 < st.accounts.length) (hk : 0 < k) (hk2 : k < st.accounts.length) :
    InstagramScraper.ringAt (InstagramScraper.rotateAccount st) k =
      InstagramScraper.ringAt st (k + 1) := by
  have hlen := rotate_length st
  have hidx := rotate_idx st
  unfold InstagramScraper.ringAt
  rw [hlen, hidx, Nat.mod_add_mod]
  have harith : (st.current_account_index + 1 + k) % st.accounts.length =
      (st.current_account_index + (k + 1)) % st.accounts.length := by
    ring_nf
  rw [harith]
  have hne : (st.current_account_index + (k + 1)) % st.accounts.length ≠
      (st.current_account_index + 1) % st.accounts.length := by
    intro he
    have hb := Nat.mod_add_mod (st.current_account_index + 1) st.accounts.length k
    rw [show st.current_account_index + (k + 1) = st.current_account_index + 1 + k by omega]
      at he
    rw [← hb] at he
    have hrn : (st.current_account_index + 1) % st.accounts.length < st.accounts.length :=
      Nat.mod_lt _ hn
    by_cases hcase :
        (st.current_account_index + 1) % st.accounts.length + k < st.accounts.length
    · rw [Nat.mod_eq_of_lt hcase] at he
      omega
    · have h2n : (st.current_account_index + 1) % st.accounts.length + k
          - st.accounts.length < st.accounts.length := by omega
      have hsub : ((st.current_account_index + 1) % st.accounts.length + k)
          % st.accounts.length =
          (st.current_account_index + 1) % st.accounts.length + k - st.accounts.length := by
        rw [Nat.mod_eq_sub_mod (by omega), Nat.mod_eq_of_lt h2n]
      rw [hsub] at he
      omega
  rw [getD_eq_get?, rotate_get?_ne st _ hne, getD_eq_get?]

theorem ringAt_zero (st : InstagramScraper.ScraperState) (a : InstagramScraper.Identity)
    (ha : st.accounts.get? st.current_account_index = some a)
    (hidx : st.current_account_index < st.accounts.length) :
    InstagramScraper.ringAt st 0 = a := by
  unfold InstagramScraper.ringAt
  rw [Nat.add_zero, Nat.mod_eq_of_lt hidx, getD_eq_get?, ha]
  rfl

theorem usableAt_rotate (now : Int) (st : InstagramScraper.ScraperState) (k : Nat)
    (hn : 0 < st.accounts.length) (hidx : st.current_account_index < st.accounts.length)
    (hk : k + 1 < st.accounts.length) :
    InstagramScraper.usableAt now (InstagramScraper.rotateAccount st) k =
      InstagramScraper.usableAt now st (k + 1) ∧
    (InstagramScraper.ringAt (InstagramScraper.rotateAccount st) k).username =
      (InstagramScraper.ringAt st (k + 1)).username := by
  cases k with
  | zero =>
    have hj : (st.current_account_index + 1) % st.accounts.length < st.accounts.length :=
      Nat.mod_lt _ hn
    obtain ⟨a, ha⟩ : ∃ a, st.accounts.get?
        ((st.current_account_index + 1) % st.accounts.length) = some a :=
      ⟨_, List.get?_eq_get hj⟩
    have h0 := ringAt_rotate_zero st a ha hn
    have hr1 : InstagramScraper.ringAt st 1 = a := by
      unfold InstagramScraper.ringAt
      rw [getD_eq_get?, ha]
      rfl
    constructor
    · simp only [InstagramScraper.usableAt, if_pos rfl]
      rw [h0, hr1, usableNow_transform]
      simp
    · rw [h0, hr1, username_transform]
  | succ m =>
    have he := ringAt_rotate_succ st (m + 1) hn (by omega) (by omega)
    constructor
    · simp [InstagramScraper.usableAt, he]
    · rw [he]

theorem getAux_spec (now : Int) : ∀ (fuel : Nat) (st : InstagramScraper.ScraperState),
    fuel ≤ st.accounts.length → st.current_account_index < st.accounts.length →
    ((InstagramScraper.getCurrentClientAux now fuel st = none ↔
        ∀ k, k < fuel → InstagramScraper.usableAt now st k = false) ∧
      (∀ k, k < fuel → (∀ j, j < k → InstagramScraper.usableAt now st j = false) →
        InstagramScraper.usableAt now st k = true →
        InstagramScraper.getCurrentClientAux now fuel st =
          some (InstagramScraper.ringAt st k).username)) := by
  intro fuel
  induction fuel with
  | zero =>
    intro st hf hidx
    exact ⟨by simp [InstagramScraper.getCurrentClientAux], fun k hk => absurd hk (by omega)⟩
  | succ fuel ih =>
    intro st hf hidx
    have hn : 0 < st.accounts.length := by omega
    obtain ⟨a, ha⟩ : ∃ a, st.accounts.get? st.current_account_index = some a :=
      ⟨_, List.get?_eq_get hidx⟩
    have hr0 : InstagramScraper.ringAt st 0 = a := ringAt_zero st a ha hidx
    have hstep : InstagramScraper.getCurrentClientAux now (fuel + 1) st =
        if InstagramScraper.usableAt now st 0 then some a.username
        else InstagramScraper.getCurrentClientAux now fuel (InstagramScraper.rotateAccount st) := by
      simp only [InstagramScraper.getCurrentClientAux, ha]
      have hu : InstagramScraper.usableAt now st 0 =
          (InstagramScraper.check_hourly_rate_limit now a.times &&
            (a.hasClient || a.loginOk)) := by
        simp [InstagramScraper.usableAt, hr0, InstagramScraper.usableNow]
      rw [hu]
      by_cases h1 : InstagramScraper.check_hourly_rate_limit now a.times = true
      · by_cases h2 : (a.hasClient || a.loginOk) = true
        · simp [h1, h2]
        · simp [h1, h2]
      · simp [h1]
    by_cases hu0 : InstagramScraper.usableAt now st 0 = true
    · rw [hstep, if_pos hu0]
      constructor
      · constructor
        · intro hcon
          cases hcon
        · intro hall
          exact absurd (hall 0 (by omega)) (by simp [hu0])
      · intro k hk hprev hk2
        cases k with
        | zero => rw [hr0]
        | succ m => exact absurd hu0 (by simp [hprev 0 (by omega)])
    · have hu0' : InstagramScraper.usableAt now st 0 = false := by
        revert hu0
        cases InstagramScraper.usableAt now st 0 <;> simp
      rw [hstep, if_neg (by simp [hu0'])]
      have hlen := rotate_length st
      have hidx2 : (InstagramScraper.rotateAccount st).current_account_index <
          (InstagramScraper.rotateAccount st).accounts.length := by
        rw [rotate_idx, hlen]
        exact Nat.mod_lt _ hn
      have hf2 : fuel ≤ (InstagramScraper.rotateAccount st).accounts.length := by
        rw [hlen]
        omega
      obtain ⟨ihn, ihs⟩ := ih (InstagramScraper.rotateAccount st) hf2 hidx2
      have htrans : ∀ k, k < fuel →
          (InstagramScraper.usableAt now (InstagramScraper.rotateAccount st) k =
            InstagramScraper.usableAt now st (k + 1) ∧
          (InstagramScraper.ringAt (InstagramScraper.rotateAccount st) k).username =
            (InstagramScraper.ringAt st (k + 1)).username) := by
        intro k hk
        exact usableAt_rotate now st k hn hidx (by omega)
      constructor
      · rw [ihn]
        constructor
        · intro hall k hk
          cases k with
          | zero => exact hu0'
          | succ m =>
            rw [← (htrans m (by omega)).1]
            exact hall m (by omega)
        · intro hall k hk
          rw [(htrans k hk).1]
          exact hall (k + 1) (by omega)
      · intro k hk hprev hk2
        cases k with
        | zero =>
          rw [hk2] at hu0'
          cases hu0'
        | succ m =>
          have hm : m < fuel := by omega
          have hprev2 : ∀ j, j < m →
              InstagramScraper.usableAt now (InstagramScraper.rotateAccount st) j = false := by
            intro j hj
            rw [(htrans j (by omega)).1]
            exact hprev (j + 1) (by omega)
          have hcur2 : InstagramScraper.usableAt now (InstagramScraper.rotateAccount st) m
              = true := by
            rw [(htrans m hm).1]
            exact hk2
          rw [ihs m hm hprev2 hcur2, (htrans m hm).2]

/-- C7 (amended): `_get_current_client` walks the ring from the current
index and returns the username of the first effectively usable identity,
raising (modelled as `none`) exactly when none is usable — but "usable" is
position-dependent: the first examined identity must be under the sliding
3600-second cap and have a cached client or a working login (`usableNow`),
while every later identity with a cached client must be under the cap and
one without a cached client is usable whenever its login works, because
rotation's fresh login resets its request history before the cap is
re-checked (`usableNext`); so an at-cap identity without a session is not
skipped (see the counterexample). -/
theorem C7_amended (now : Int) (st : InstagramScraper.ScraperState)
    (h : st.current_account_index < st.accounts.length) :
    (InstagramScraper.get_current_client now st = none ↔
      ∀ k, k < st.accounts.length → InstagramScraper.usableAt now st k = false) ∧
    (∀ k, k < st.accounts.length →
      (∀ j, j < k → InstagramScraper.usableAt now st j = false) →
      InstagramScraper.usableAt now st k = true →
      InstagramScraper.get_current_client now st =
        some (InstagramScraper.ringAt st k).username) := by
  have hn : ¬ (st.accounts.length = 0) := by omega
  unfold InstagramScraper.get_current_client
  rw [if_neg hn]
  exact getAux_spec now st.accounts.length st (le_refl _) h

/-- Witness for C7 (amended) at the two-identity fixture: position 0 is
unusable (at cap with a cached client), position 1 is usable, so acquire
returns "acct_b". -/
theorem C7_amended_witness :
    InstagramScraper.get_current_client 10000 c7State = some "acct_b" := by
  have h := (C7_amended 10000 c7State (by decide)).2 1 (by decide)
    (by
      intro j hj
      have hj0 : j = 0 := by omega
      subst hj0
      decide)
    (by decide)
  simpa using h
